import Mathlib

/-!
Verification development for the behance-api client binding (src/index.js).

The source is shallowly embedded: JavaScript values that the claims exercise
(strings, plain objects with their own enumerable properties in enumeration
order, functions carrying properties, and `undefined`) become the inductive
`JsVal`; a thrown `Error` becomes `Except.error` / the `Outcome.thrown`
constructor; issuing the HTTP GET becomes the `Outcome.request` constructor
recording the URL and the effective callback, since the claims are about what
happens up to (and instead of) the network call.
-/

namespace Behance

/-- Model of a JavaScript value as the repository's methods see them:
a string, a plain object (its own enumerable properties, in enumeration
order, values modelled as strings), a function (JS functions can carry own
enumerable properties; `tag` distinguishes function identities), or
`undefined`. -/
inductive JsVal where
  | str (s : String)
  | obj (props : List (String × String))
  | fn (tag : Nat) (props : List (String × String))
  | undef
deriving DecidableEq, Repr

/-- JavaScript `typeof`. -/
def typeofJs : JsVal → String
  | .str _ => "string"
  | .obj _ => "object"
  | .fn _ _ => "function"
  | .undef => "undefined"

/-- JavaScript truthiness for the modelled values. -/
def jsTruthy : JsVal → Bool
  | .str s => s ≠ ""
  | .obj _ => true
  | .fn _ _ => true
  | .undef => false

/-- String coercion as performed by `+` concatenation in JS.  A function
coerces to its source text, which no claim observes; a fixed marker stands
for it. -/
def jsToString : JsVal → String
  | .str s => s
  | .obj _ => "[object Object]"
  | .fn _ _ => "function () {}"
  | .undef => "undefined"

/-- `Object.keys(v)`: own enumerable property names in enumeration order.
On a string, JS yields the character indices as strings; on `undefined` it
throws a TypeError, modelled as `Except.error`. -/
def jsObjectKeys : JsVal → Except String (List String)
  | .str s => .ok ((List.range s.length).map (fun i => toString i))
  | .obj props => .ok (props.map Prod.fst)
  | .fn _ props => .ok (props.map Prod.fst)
  | .undef => .error "TypeError: Cannot convert undefined or null to object"

/-- `qs.stringify` on the modelled values, restricted to flat string-valued
properties joined as `k=v` with `&` (the claims only exercise unreserved
characters, so percent-encoding is not modelled).  `qs.stringify` of a
function yields the empty string. -/
def qsStringify : JsVal → String
  | .obj props => String.intercalate "&" (props.map (fun p => p.1 ++ "=" ++ p.2))
  | .str s => String.intercalate "&"
      ((List.range s.length).map (fun i => toString i ++ "=" ++ toString (s.toList.getD i ' ')))
  | .fn _ _ => ""
  | .undef => ""

/-- src/index.js lines 13-16, `requestUrl(endpoint, token, options)`:
`const query = "?" + (options ? qs.stringify(options) : "") + "&client_id=" + token;
 return "https://api.behance.net/v2/" + endpoint + query;`
When the source calls it with two arguments, `options` is `undefined`
(falsy), modelled by passing `JsVal.undef`. -/
def requestUrl (endpoint : String) (token : String) (options : JsVal) : String :=
  let query := "?" ++ (if jsTruthy options then qsStringify options else "") ++
    "&client_id=" ++ token
  "https://api.behance.net/v2/" ++ endpoint ++ query

/-- The HTTP response object handed to the `request` library's callback;
on a transport error the library passes `undefined` for it, modelled as
`Option HttpRes` at the use site. -/
structure HttpRes where
  statusCode : Nat
deriving DecidableEq, Repr

/-- The response body together with whether `JSON.parse` succeeds on it:
`json p` parses to the payload `p`, `malformed e` makes `JSON.parse` throw a
SyntaxError rendered as `e`. -/
inductive Body where
  | json (payload : String)
  | malformed (e : String)
deriving DecidableEq, Repr

/-- What `requestHandler` does once the transport hands it `(err, res, data)`:
either an exception escapes the handler (`threw` — never delivered to the
callback), or the callback is invoked: `calledNoResponse` is the 403 branch
`cb(Error(...))`, and `called err res payload` is the final
`cb(err, res, payload)`. -/
inductive HandlerOutcome where
  | threw (msg : String)
  | calledNoResponse (msg : String)
  | called (err : Option String) (res : HttpRes) (payload : String)
deriving DecidableEq, Repr

/-- src/index.js lines 24-39, `requestHandler(url, cb)`, modelled from the
point where the `request` library invokes the inner callback with
`(err, res, data)`.  The source reads `res.statusCode` before looking at
`err`; when the transport failed, `res` is `undefined` and that read throws
a TypeError.  On 403 the callback gets an Error and the body is not parsed;
a JSON parse failure is re-thrown (`throw Error(e)`), not routed to the
callback; otherwise `cb(err, res, payload)` runs. -/
def requestHandler (err : Option String) (res : Option HttpRes) (data : Body) :
    HandlerOutcome :=
  match res with
  | none => .threw "TypeError: Cannot read properties of undefined (reading statusCode)"
  | some r =>
    if r.statusCode == 403 then
      .calledNoResponse "No response from the Behance API"
    else
      match data with
      | .malformed e => .threw ("Error: " ++ e)
      | .json payload => .called err r payload

/-- src/index.js lines 48-59, the loop of `compareKeys` over
`keys1 = Object.keys(obj1)` against `keys2 = Object.keys(obj2)`.  Every
iteration of the `for` loop either throws (`keys2.indexOf(keys1[i]) <= -1`,
i.e. the key is absent) or returns `true`, so only index 0 is ever reached;
with no keys the loop body never runs and the function returns `undefined`.
The result is `Except.error` for the throw, `.ok (some true)` for
`return true`, and `.ok none` for the implicit `undefined`. -/
def compareKeysLoop (keys1 keys2 : List String) (fname : String) :
    Except String (Option Bool) :=
  match keys1 with
  | [] => .ok none
  | k :: _ =>
    if keys2.contains k then .ok (some true)
    else .error ("property " ++ k ++ " is not a valid query for " ++ fname)

/-- src/index.js lines 48-59, `compareKeys(obj1, obj2, fn)` on two plain
objects given by their own enumerable properties. -/
def compareKeys (obj1 obj2 : List (String × String)) (fname : String) :
    Except String (Option Bool) :=
  compareKeysLoop (obj1.map Prod.fst) (obj2.map Prod.fst) fname

/-- The observable effect of invoking one generated client method:
it throws synchronously (`thrown`), it hands a URL and a callback value to
`requestHandler` (`request` — the network call), or it falls through and
returns `undefined` doing neither (`noop`, a dead branch kept for
faithfulness to the `if` without an `else`). -/
inductive Outcome where
  | thrown (msg : String)
  | request (url : String) (cb : JsVal)
  | noop
deriving DecidableEq, Repr

/-- An entry of `endpointWithOptionOnly` (src/index.js lines 76-96):
`{name, path, queries}`, where `queries` is the endpoint's allow-list object
from libs/query-validation.json. -/
structure OptDef where
  name : String
  path : String
  queries : List (String × String)
deriving DecidableEq, Repr

/-- An entry of `endpointWithOnlyAnId` (src/index.js lines 115-135).  All
three path fields are optional because the `collection` entry supplies a
`path` field and no `pathprefix`/`pathsuffix` (the generated method reads
only the latter two).  `pathpre`/`pathsuf` stand for the source fields
`pathprefix`/`pathsuffix`. -/
structure IdOnlyDef where
  name : String
  pathpre : Option String
  path : Option String
  pathsuf : Option String
deriving DecidableEq, Repr

/-- An entry of `endpointWithIdAndOptions` (src/index.js lines 158-203):
`{name, pathprefix, pathsuffix, queries}` (fields `pathpre`/`pathsuf` stand
for `pathprefix`/`pathsuffix`). -/
structure IdOptsDef where
  name : String
  pathpre : String
  pathsuf : Option String
  queries : List (String × String)
deriving DecidableEq, Repr

/-- `def.pathsuffix ? def.pathsuffix : ''` (an absent field is `undefined`,
falsy; no entry uses an empty-string suffix). -/
def sufOrEmpty : Option String → String
  | some s => s
  | none => ""

/-- JS string concatenation `prefixField + id` when the field may be absent:
`undefined + x` coerces `undefined` to the string "undefined". -/
def preOrUndefined : Option String → String
  | some s => s
  | none => "undefined"

/-- src/index.js lines 105-109, the method generated for an
`endpointWithOptionOnly` entry:
`if (Object.keys(opts).length === 0 || compareKeys(opts, def.queries, def.name))
   requestHandler(requestUrl(def.path, this.clientId, opts), cb);`
A thrown error from `Object.keys` or `compareKeys` propagates; a truthy
result issues the request; otherwise the method returns `undefined`. -/
def optionsOnlyAssign (d : OptDef) (clientId : String) (opts cb : JsVal) : Outcome :=
  match jsObjectKeys opts with
  | .error m => .thrown m
  | .ok keys =>
    if keys.length == 0 then
      .request (requestUrl d.path clientId opts) cb
    else
      match compareKeysLoop keys (d.queries.map Prod.fst) d.name with
      | .error m => .thrown m
      | .ok r => if r == some true then .request (requestUrl d.path clientId opts) cb
                 else .noop

/-- src/index.js lines 144-152, the method generated for an
`endpointWithOnlyAnId` entry, invoked with the actual argument list `args`
(`id` is `args[0]`, `cb` is `args[1]`, missing arguments are `undefined`):
computes `endpoint = def.pathprefix + id + (def.pathsuffix ? ... : '')`,
throws unless `arguments.length === 2`, then calls
`requestHandler(requestUrl(endpoint, this.clientId), cb)` — `requestUrl`
receives no third argument, i.e. `undefined` options. -/
def idOnlyAssign (d : IdOnlyDef) (clientId : String) (args : List JsVal) : Outcome :=
  let id := args.getD 0 .undef
  let cb := args.getD 1 .undef
  let endpoint := preOrUndefined d.pathpre ++ jsToString id ++ sufOrEmpty d.pathsuf
  if args.length ≠ 2 then
    .thrown ("." ++ d.name ++ " requires both an id and a callback function.")
  else
    .request (requestUrl endpoint clientId .undef) cb

/-- `x || y` on modelled values where `x` is a `let` that may still be
`undefined` (`none`). -/
def jsOr (x : Option JsVal) (y : JsVal) : JsVal :=
  match x with
  | some v => if jsTruthy v then v else y
  | none => y

/-- src/index.js lines 213-231, the method generated for an
`endpointWithIdAndOptions` entry, invoked with the actual argument list
`args` (`id` is `args[0]`, `opts` is `args[1]`, `cb` is `args[2]`, missing
arguments are `undefined`):
computes `endpoint`; when `arguments.length === 2` sets `newCb = opts` and
`newOpts = {}`; throws if `id === '' || typeof id === 'object'`; then
`if (Object.keys(opts).length === 0 || compareKeys(opts, def.queries, def.name))
   requestHandler(requestUrl(endpoint, this.clientId, newOpts || opts), newCb || cb)`
— note the validation reads the original `opts`, while the request uses
`newOpts || opts` and `newCb || cb`. -/
def idOptsAssign (d : IdOptsDef) (clientId : String) (args : List JsVal) : Outcome :=
  let id := args.getD 0 .undef
  let opts := args.getD 1 .undef
  let cb := args.getD 2 .undef
  let endpoint := d.pathpre ++ jsToString id ++ sufOrEmpty d.pathsuf
  let newCb : Option JsVal := if args.length == 2 then some opts else none
  let newOpts : Option JsVal := if args.length == 2 then some (.obj []) else none
  if id == .str "" || typeofJs id == "object" then
    .thrown ("." ++ d.name ++ " requires at least an id and a callback function.")
  else
    match jsObjectKeys opts with
    | .error m => .thrown m
    | .ok keys =>
      if keys.length == 0 then
        .request (requestUrl endpoint clientId (jsOr newOpts opts)) (jsOr newCb cb)
      else
        match compareKeysLoop keys (d.queries.map Prod.fst) d.name with
        | .error m => .thrown m
        | .ok r =>
          if r == some true then
            .request (requestUrl endpoint clientId (jsOr newOpts opts)) (jsOr newCb cb)
          else .noop

/-- src/index.js lines 115-135, the `endpointWithOnlyAnId` table.  The
`collection` entry defines `path: 'collection'` and no `pathprefix` /
`pathsuffix`. -/
def endpointWithOnlyAnId : List IdOnlyDef :=
  [ { name := "project", pathpre := some "projects/", path := none, pathsuf := none },
    { name := "user", pathpre := some "users/", path := none, pathsuf := none },
    { name := "team", pathpre := some "teams/", path := none, pathsuf := none },
    { name := "userStats", pathpre := some "users/", path := none,
      pathsuf := some "/stats" },
    { name := "userWorkExperience", pathpre := some "users/", path := none,
      pathsuf := some "/work_experience" },
    { name := "collection", pathpre := none, path := some "collection",
      pathsuf := none } ]

/-- Modelled from the spec: `libs/query-validation.json` is not under src/;
the spec describes it only as the per-endpoint allow-list of permitted query
keys, and the repository's tests establish that `q` is a permitted key of the
`projects` endpoint (a call validating `{ q: 'motorcycle' }` proceeds to the
request).  Only the membership of the listed keys and the absence of clearly
foreign keys such as `bogus` are relied on. -/
def queryValidationProjects : List (String × String) := [("q", "")]

/-- Modelled from the spec: the `userProjects` allow-list from
`libs/query-validation.json` (not under src/); the repository's tests
establish that `sort` is a permitted key (a call validating
`{ sort: 'appreciations' }` proceeds to the request). -/
def queryValidationUserProjects : List (String × String) := [("sort", "")]

/-- The `projects` entry of `endpointWithOptionOnly`
(src/index.js lines 76-79), with its modelled allow-list. -/
def projectsDef : OptDef :=
  { name := "projects", path := "projects", queries := queryValidationProjects }

/-- The `userProjects` entry of `endpointWithIdAndOptions`
(src/index.js lines 164-167), with its modelled allow-list. -/
def userProjectsDef : IdOptsDef :=
  { name := "userProjects", pathpre := "users/", pathsuf := some "/projects",
    queries := queryValidationUserProjects }

/-- C2 counterexample: the `projects` method, called with an options object
whose second key `bogus` is absent from the endpoint's allow-list, does not
throw — the first-key-only validator passes on `q` and the network request is
issued, with the invalid key serialized into the URL. -/
theorem c2_counterexample_second_key_not_validated :
    optionsOnlyAssign projectsDef "123"
        (.obj [("q", "motorcycle"), ("bogus", "1")]) (.fn 0 []) =
      Outcome.request "https://api.behance.net/v2/projects?q=motorcycle&bogus=1&client_id=123"
        (.fn 0 []) ∧
    ¬ "bogus" ∈ projectsDef.queries.map Prod.fst := by
  exact ⟨rfl, by decide⟩

/-- C2 (amended): for every options-only and every id-plus-options generated
operation, calling it with an options object whose first key (in enumeration
order) is absent from that endpoint's schema throws the validation error and
issues no network request (the outcome is `thrown`, not `request`); keys
after the first are not checked. -/
theorem c2_first_key_absent_throws (k v clientId id : String)
    (rest : List (String × String)) (cb : JsVal) (d : OptDef) (d2 : IdOptsDef)
    (hid : id ≠ "")
    (h1 : ¬ k ∈ d.queries.map Prod.fst) (h2 : ¬ k ∈ d2.queries.map Prod.fst) :
    optionsOnlyAssign d clientId (.obj ((k, v) :: rest)) cb =
      Outcome.thrown ("property " ++ k ++ " is not a valid query for " ++ d.name) ∧
    idOptsAssign d2 clientId [.str id, .obj ((k, v) :: rest), cb] =
      Outcome.thrown ("property " ++ k ++ " is not a valid query for " ++ d2.name) := by
  have hc1 : (d.queries.map Prod.fst).contains k = false := by simpa using h1
  have hc2 : (d2.queries.map Prod.fst).contains k = false := by simpa using h2
  constructor
  · simp [optionsOnlyAssign, jsObjectKeys, compareKeysLoop]
    rw [hc1]
    rfl
  · simp [idOptsAssign, jsObjectKeys, compareKeysLoop, typeofJs, hid]
    rw [hc2]
    rfl

/-- C2 witness: concrete instances of `c2_first_key_absent_throws` for the
`projects` and `userProjects` endpoints at the key `bogus`. -/
theorem c2_witness :
    optionsOnlyAssign projectsDef "123" (.obj [("bogus", "1")]) (.fn 0 []) =
      Outcome.thrown "property bogus is not a valid query for projects" ∧
    idOptsAssign userProjectsDef "123"
        [.str "edmendoza3", .obj [("bogus", "1")], .fn 0 []] =
      Outcome.thrown "property bogus is not a valid query for userProjects" :=
  c2_first_key_absent_throws "bogus" "1" "123" "edmendoza3" [] (.fn 0 [])
    projectsDef userProjectsDef (by decide) (by decide) (by decide)

/-- C6: an id-only generated operation invoked with any number of arguments
other than exactly two throws the argument error synchronously — the outcome
is `thrown`, so no network request is attempted. -/
theorem c6_id_only_wrong_arity_throws (d : IdOnlyDef) (clientId : String)
    (args : List JsVal) (h : args.length ≠ 2) :
    idOnlyAssign d clientId args =
      Outcome.thrown ("." ++ d.name ++ " requires both an id and a callback function.") := by
  simp [idOnlyAssign, h]

/-- C6 witness: `project` called with one argument throws. -/
theorem c6_witness :
    idOnlyAssign
        { name := "project", pathpre := some "projects/", path := none, pathsuf := none }
        "123" [.str "4889175"] =
      Outcome.thrown ".project requires both an id and a callback function." :=
  c6_id_only_wrong_arity_throws
    { name := "project", pathpre := some "projects/", path := none, pathsuf := none }
    "123" [.str "4889175"] (by decide)

/-- C7: an id-plus-options generated operation invoked with an id that is the
empty string, or with an id that is itself an object (the options-as-first-arg
foot-gun), throws the argument error synchronously — the outcome is `thrown`,
so no network request is issued. -/
theorem c7_id_opts_bad_id_throws (d : IdOptsDef) (clientId : String) (args : List JsVal)
    (h : args.getD 0 .undef = JsVal.str "" ∨ typeofJs (args.getD 0 .undef) = "object") :
    idOptsAssign d clientId args =
      Outcome.thrown ("." ++ d.name ++ " requires at least an id and a callback function.") := by
  rcases h with h | h <;> simp at h <;> simp [idOptsAssign, h]

/-- C7 witness: `userProjects` called with an options object in the id
position throws. -/
theorem c7_witness :
    idOptsAssign userProjectsDef "123"
        [.obj [("sort", "appreciations")], .fn 0 []] =
      Outcome.thrown ".userProjects requires at least an id and a callback function." :=
  c7_id_opts_bad_id_throws userProjectsDef "123"
    [.obj [("sort", "appreciations")], .fn 0 []] (Or.inr rfl)

end Behance

namespace Behance

/-- C1: for every non-empty options object and every schema, `compareKeys`
inspects only the first key in the options object's enumeration order — it
throws (here: `Except.error`) exactly when that first key is absent from the
schema, returns `true` as soon as that first key passes, and its result does
not depend on the remaining keys. -/
theorem c1_compareKeys_checks_only_first_key (k v : String)
    (rest obj2 : List (String × String)) (fname : String) :
    (compareKeys ((k, v) :: rest) obj2 fname =
      if (obj2.map Prod.fst).contains k then Except.ok (some true)
      else Except.error ("property " ++ k ++ " is not a valid query for " ++ fname)) ∧
    ∀ rest₂, compareKeys ((k, v) :: rest) obj2 fname =
      compareKeys ((k, v) :: rest₂) obj2 fname := by
  refine ⟨rfl, fun rest₂ => rfl⟩

/-- C8 counterexample: on the empty options object the validator neither
returns `true` nor fails — the `for` loop body never runs and `compareKeys`
returns JavaScript's implicit `undefined` (modelled `Except.ok none`), so
the claim's "never returns any other value" is false at the empty object. -/
theorem c8_counterexample_empty_returns_undefined :
    compareKeys [] [("q", "")] "projects" = Except.ok none ∧
    compareKeys [] [("q", "")] "projects" ≠ Except.ok (some true) := by
  refine ⟨rfl, fun h => ?_⟩
  simp [compareKeys, compareKeysLoop] at h

/-- C8 (amended to non-empty options objects): for every options object with
at least one key and every schema, `compareKeys` either returns `true` or
fails with an error naming the offending key (the first one) and the
endpoint name. -/
theorem c8_nonempty_true_or_error (k v : String) (rest obj2 : List (String × String))
    (fname : String) :
    compareKeys ((k, v) :: rest) obj2 fname = Except.ok (some true) ∨
    compareKeys ((k, v) :: rest) obj2 fname =
      Except.error ("property " ++ k ++ " is not a valid query for " ++ fname) := by
  unfold compareKeys compareKeysLoop
  by_cases h : (obj2.map Prod.fst).contains k = true
  · left
    simp only [List.map_cons, if_pos h]
  · right
    simp only [List.map_cons, if_neg h]

/-- C4: the URL builder always yields
`https://api.behance.net/v2/<endpoint>?<serialized-options>&client_id=<token>`,
the leading `?` included even for absent (`undefined`) or empty options, which
yields a literal `?&client_id=...`; in particular
`requestUrl "projects" 123 {q: motorcycle, time: month}` is
`https://api.behance.net/v2/projects?q=motorcycle&time=month&client_id=123`. -/
theorem c4_requestUrl_format :
    (∀ (endpoint token : String) (props : List (String × String)),
      requestUrl endpoint token (.obj props) =
        "https://api.behance.net/v2/" ++ endpoint ++
          ("?" ++ String.intercalate "&" (props.map (fun p => p.1 ++ "=" ++ p.2)) ++
            "&client_id=" ++ token)) ∧
    (∀ endpoint token, requestUrl endpoint token .undef =
      "https://api.behance.net/v2/" ++ endpoint ++ ("?&client_id=" ++ token)) ∧
    requestUrl "projects" "123" (.obj [("q", "motorcycle"), ("time", "month")]) =
      "https://api.behance.net/v2/projects?q=motorcycle&time=month&client_id=123" ∧
    requestUrl "fields" "123" (.obj []) = "https://api.behance.net/v2/fields?&client_id=123" ∧
    requestUrl "fields" "123" .undef = "https://api.behance.net/v2/fields?&client_id=123" := by
  refine ⟨fun endpoint token props => rfl, fun endpoint token => ?_, rfl, rfl, rfl⟩
  show "https://api.behance.net/v2/" ++ endpoint ++ ("?" ++ "" ++ "&client_id=" ++ token) = _
  rw [String.append_empty]
  rfl

/-- C5: the claim says a lower-level transport error is delivered through the
callback's error parameter.  The code instead reads `res.statusCode` first;
on a transport error the `request` library passes `res = undefined`, so the
handler throws a TypeError and the callback is never invoked with the error. -/
theorem c5_transport_error_uncaught (e : String) (data : Body) :
    requestHandler (some e) none data =
      HandlerOutcome.threw
        "TypeError: Cannot read properties of undefined (reading statusCode)" := rfl

/-- C9: the `collection` entry of `endpointWithOnlyAnId` defines `path` and
not the `pathprefix` the generated method reads, so
`def.pathprefix + id` coerces `undefined` to the string "undefined" and every
`collection(id, cb)` call requests
`https://api.behance.net/v2/undefined<id>?&client_id=<token>`. -/
theorem c9_collection_requests_undefined_path :
    endpointWithOnlyAnId.get? 5 = some
      { name := "collection", pathpre := none, path := some "collection",
        pathsuf := none } ∧
    ∀ (id token : String) (cb : JsVal),
      idOnlyAssign
          { name := "collection", pathpre := none, path := some "collection",
            pathsuf := none } token [.str id, cb] =
        Outcome.request
          ("https://api.behance.net/v2/undefined" ++ id ++ ("?&client_id=" ++ token))
          cb := by
  refine ⟨rfl, fun id token cb => ?_⟩
  show Outcome.request
      ("https://api.behance.net/v2/" ++ ("undefined" ++ id ++ "") ++
        ("?" ++ "" ++ "&client_id=" ++ token)) cb = _
  have h1 : ("https://api.behance.net/v2/undefined" : String) =
      "https://api.behance.net/v2/" ++ "undefined" := rfl
  have h2 : ("?&client_id=" : String) = "?" ++ "&client_id=" := rfl
  rw [h1, h2]
  simp only [String.append_empty, ← String.append_assoc]

/-- C3 counterexample: a callback is a function, and a function can carry own
enumerable properties; with such a callback the two-argument call is not
identical to the three-argument call with empty options — the two-argument
call validates the callback's properties as if they were the options and
throws, while the three-argument call issues the request. -/
theorem c3_counterexample_callback_with_props :
    idOptsAssign userProjectsDef "123"
        [.str "edmendoza3", .fn 0 [("bogus", "1")]] ≠
      idOptsAssign userProjectsDef "123"
        [.str "edmendoza3", .obj [], .fn 0 [("bogus", "1")]] := by
  decide

/-- C3 (amended): for every id-plus-options generated operation, every id
value and every callback with no own enumerable properties (any plain
function), invoking with exactly two arguments treats the second argument as
the callback and uses empty options, behaving identically to the
three-argument invocation with the empty options object. -/
theorem c3_two_args_same_as_empty_options (d : IdOptsDef) (clientId : String)
    (id : JsVal) (tag : Nat) :
    idOptsAssign d clientId [id, .fn tag []] =
      idOptsAssign d clientId [id, .obj [], .fn tag []] := by
  cases id <;> rfl

/-- C10 counterexample: the claim promises a throw whenever the callback has
`at least one` own enumerable property outside the schema, but the validator
only inspects the first property — with properties `(sort, bogus)` on the
callback of a two-argument `userProjects` call, `sort` passes and the request
is issued even though `bogus` is not in the schema. -/
theorem c10_counterexample_second_prop_not_validated :
    idOptsAssign userProjectsDef "123"
        [.str "edmendoza3", .fn 0 [("sort", "appreciations"), ("bogus", "1")]] =
      Outcome.request "https://api.behance.net/v2/users/edmendoza3/projects?&client_id=123"
        (.fn 0 [("sort", "appreciations"), ("bogus", "1")]) ∧
    ¬ "bogus" ∈ userProjectsDef.queries.map Prod.fst := by
  exact ⟨rfl, by decide⟩

/-- C10 (amended): for every id-plus-options generated operation invoked with
exactly two arguments, the validation is applied to the original second
argument (the callback value) rather than the substituted empty options: if
the first own enumerable property of that callback value is not in the
endpoint's schema, the call throws the validation error and no request is
issued. -/
theorem c10_two_arg_validates_callback_first_prop (d : IdOptsDef)
    (clientId id k v : String) (tag : Nat) (rest : List (String × String))
    (hid : id ≠ "") (hk : ¬ k ∈ d.queries.map Prod.fst) :
    idOptsAssign d clientId [.str id, .fn tag ((k, v) :: rest)] =
      Outcome.thrown ("property " ++ k ++ " is not a valid query for " ++ d.name) := by
  have hc : (d.queries.map Prod.fst).contains k = false := by simpa using hk
  simp [idOptsAssign, jsObjectKeys, compareKeysLoop, typeofJs, hid]
  rw [hc]
  rfl

/-- C10 witness: `userProjects` called with two arguments where the callback
carries the foreign property `bogus` throws. -/
theorem c10_witness :
    idOptsAssign userProjectsDef "123" [.str "edmendoza3", .fn 0 [("bogus", "1")]] =
      Outcome.thrown "property bogus is not a valid query for userProjects" :=
  c10_two_arg_validates_callback_first_prop userProjectsDef "123" "edmendoza3"
    "bogus" "1" 0 [] (by decide) (by decide)

end Behance
